import Mathlib

/-!
Verification of the Nexus Health metrics & scoring engine.

Shallow embedding of the TypeScript sources:
  * `src/lib/health-engine.ts`  — BMR / TDEE / day score / execution score
  * `src/lib/local-store.ts`    — daily-log patch arithmetic
  * `src/lib/data-sync.ts`      — leaderboard ranking (pure core)
  * `src/components/dashboard/ExecutiveDashboard.tsx` — mission & insight engine

JavaScript numbers are modelled as rationals (`ℚ`), which is exact for all
arithmetic appearing in the engine.  `Math.round` is modelled as
round-half-up (`⌊q + 1/2⌋`), which is its JavaScript semantics.  The ambient
wall-clock hour read by `getMission` / `runEngine` is passed as an explicit
parameter, as the spec requires for testability.
-/

/-- JavaScript `Math.round`: round half towards positive infinity. -/
def jsRound (q : ℚ) : ℤ := ⌊q + 1/2⌋

theorem jsRound_add_int (q : ℚ) (n : ℤ) : jsRound (q + n) = jsRound q + n := by
  unfold jsRound
  rw [add_right_comm, Int.floor_add_int]

-- ─── health-engine.ts: metrics calculator ──────────────────────────────────

inductive Gender where
  | male
  | female
deriving DecidableEq, Repr

/-- Function `calculateBMR` (Mifflin-St Jeor):
`base = 10*weightKg + 6.25*heightCm - 5*age`;
`Math.round(gender === 'male' ? base + 5 : base - 161)`. -/
def calculateBMR (weightKg heightCm age : ℚ) (gender : Gender) : ℤ :=
  let base := 10 * weightKg + 625/100 * heightCm - 5 * age
  jsRound (if gender = Gender.male then base + 5 else base - 161)

-- ─── health-engine.ts: day scorer (V1.8, dynamic water target) ─────────────

/-- Constant `WATER_TARGET_ML = 2000`. -/
def WATER_TARGET_ML : ℚ := 2000

structure DaySnapshot where
  caloriesIn : ℚ
  caloriesOut : ℚ
  exerciseMinutes : ℚ
  sleepHours : ℚ
  waterMl : ℚ
deriving DecidableEq, Repr

/-- Calorie-accuracy block of `calculateDayScore`:
`diff ≤ 100 → +40; ≤ 300 → +30; ≤ 500 → +15; else +0`
where `diff = |targetCalories - (caloriesIn - caloriesOut)|`. -/
def caloriePoints (caloriesIn caloriesOut targetCalories : ℚ) : ℤ :=
  let diff := |targetCalories - (caloriesIn - caloriesOut)|
  if diff ≤ 100 then 40
  else if diff ≤ 300 then 30
  else if diff ≤ 500 then 15
  else 0

/-- Hydration block of `calculateDayScore` (V1.8):
`waterMl ≥ waterTarget → +20; ≥ Math.round(waterTarget*0.75) → +12;
≥ Math.round(waterTarget*0.5) → +5; else −5`. -/
def hydrationPoints (waterMl waterTarget : ℚ) : ℤ :=
  if waterMl ≥ waterTarget then 20
  else if waterMl ≥ (jsRound (waterTarget * (75/100)) : ℚ) then 12
  else if waterMl ≥ (jsRound (waterTarget * (5/10)) : ℚ) then 5
  else -5

/-- Exercise block of `calculateDayScore`:
`exerciseMinutes ≥ 30 → +20; ≥ 15 → +10; else +0`. -/
def exercisePoints (exerciseMinutes : ℚ) : ℤ :=
  if exerciseMinutes ≥ 30 then 20
  else if exerciseMinutes ≥ 15 then 10
  else 0

/-- Sleep block of `calculateDayScore`:
`7 ≤ sleepHours ≤ 9 → +20; ≥ 6 → +10; > 0 → +3; else +0`. -/
def sleepPoints (sleepHours : ℚ) : ℤ :=
  if 7 ≤ sleepHours ∧ sleepHours ≤ 9 then 20
  else if sleepHours ≥ 6 then 10
  else if sleepHours > 0 then 3
  else 0

/-- Sum of the four category blocks of `calculateDayScore` (the value of the
accumulator `s` before the final clamp). -/
def dayScoreSum (day : DaySnapshot) (targetCalories waterTarget : ℚ) : ℤ :=
  caloriePoints day.caloriesIn day.caloriesOut targetCalories
    + hydrationPoints day.waterMl waterTarget
    + exercisePoints day.exerciseMinutes
    + sleepPoints day.sleepHours

/-- Function `calculateDayScore(day, targetCalories, waterTarget = WATER_TARGET_ML)`:
the four category blocks summed, then `Math.max(0, Math.min(100, s))`. -/
def calculateDayScore (day : DaySnapshot) (targetCalories : ℚ)
    (waterTarget : ℚ := WATER_TARGET_ML) : ℤ :=
  max 0 (min 100 (dayScoreSum day targetCalories waterTarget))

/-- The legacy two-argument `calculateDayScore` from `health-engine.ts`
(V1.5): identical save for hard-coded hydration thresholds
`WATER_TARGET_ML`, `1500`, `1000`. -/
def calculateDayScoreLegacy (day : DaySnapshot) (targetCalories : ℚ) : ℤ :=
  let hydration : ℤ :=
    if day.waterMl ≥ WATER_TARGET_ML then 20
    else if day.waterMl ≥ 1500 then 12
    else if day.waterMl ≥ 1000 then 5
    else -5
  max 0 (min 100
    (caloriePoints day.caloriesIn day.caloriesOut targetCalories
      + hydration
      + exercisePoints day.exerciseMinutes
      + sleepPoints day.sleepHours))

/-- Function `calculateExecutionScore(days, targetCalories, waterTarget)`:
`0` on the empty list, else `Math.round(total / days.length)` where
`total = days.reduce((sum, d) => sum + calculateDayScore(d, …), 0)`. -/
def calculateExecutionScore (days : List DaySnapshot) (targetCalories : ℚ)
    (waterTarget : ℚ := WATER_TARGET_ML) : ℤ :=
  if days.length = 0 then 0
  else
    let total : ℤ :=
      days.foldl (fun sum d => sum + calculateDayScore d targetCalories waterTarget) 0
    jsRound ((total : ℚ) / (days.length : ℚ))

-- ─── local-store.ts / data-sync.ts: daily log and delta patch ──────────────

structure DailyLog where
  caloriesIn : ℚ
  caloriesOut : ℚ
  exerciseMinutes : ℚ
  sleepHours : ℚ
  waterMl : ℚ
  flushDone : Bool
deriving DecidableEq, Repr

/-- Constant `DEFAULT_LOG` is the all-zero fresh-day log. -/
def DEFAULT_LOG : DailyLog := ⟨0, 0, 0, 0, 0, false⟩

/-- Type `Partial<DailyLog>`: every field optional (`undefined` = `none`). -/
structure DailyLogPatch where
  caloriesIn : Option ℚ := none
  caloriesOut : Option ℚ := none
  exerciseMinutes : Option ℚ := none
  sleepHours : Option ℚ := none
  waterMl : Option ℚ := none
  flushDone : Option Bool := none
deriving DecidableEq, Repr

/-- The pure patch arithmetic shared by `patchDailyLog` (local-store.ts) and
`cloudPatchDailyLog` (data-sync.ts), with the current log passed explicitly
instead of being read from storage:
`next.field = Math.max(0, cur.field + (patch.field ?? 0))` for the five
numeric fields; `flushDone = patch.flushDone !== undefined ? patch.flushDone
: cur.flushDone`. -/
def patchDailyLog (cur : DailyLog) (patch : DailyLogPatch) : DailyLog where
  caloriesIn := max 0 (cur.caloriesIn + patch.caloriesIn.getD 0)
  caloriesOut := max 0 (cur.caloriesOut + patch.caloriesOut.getD 0)
  exerciseMinutes := max 0 (cur.exerciseMinutes + patch.exerciseMinutes.getD 0)
  sleepHours := max 0 (cur.sleepHours + patch.sleepHours.getD 0)
  waterMl := max 0 (cur.waterMl + patch.waterMl.getD 0)
  flushDone := patch.flushDone.getD cur.flushDone

/-- All five numeric fields of a log are non-negative (the spec's DailyLog
invariant). -/
def LogNonneg (log : DailyLog) : Prop :=
  0 ≤ log.caloriesIn ∧ 0 ≤ log.caloriesOut ∧ 0 ≤ log.exerciseMinutes ∧
    0 ≤ log.sleepHours ∧ 0 ≤ log.waterMl

-- ─── ExecutiveDashboard.tsx: mission status ────────────────────────────────

inductive Mission where
  | standby
  | sleep
  | criticalRefuel
  | fatBurn
  | refuel
  | recovery
  | complete
  | optimal
deriving DecidableEq, Repr

/-- Result `{ text, critical }` returned by `getMission`; `text` is modelled by the
translation key (`t.missionSleep` ↦ `Mission.sleep`, …). -/
structure MissionResult where
  text : Mission
  critical : Bool
deriving DecidableEq, Repr

/-- Function `getMission(log, targetCalories, t, waterTarget)`.  The wall-clock hour
(`new Date().getHours()`) is injected as the explicit parameter `hour`. -/
def getMission (log : DailyLog) (targetCalories : ℚ) (hour : ℤ)
    (waterTarget : ℚ := WATER_TARGET_ML) : MissionResult :=
  let net := log.caloriesIn - log.caloriesOut
  let bal := targetCalories - net
  if log.caloriesIn = 0 then ⟨Mission.standby, false⟩
  else if hour ≥ 21 then ⟨Mission.sleep, false⟩
  else if hour ≥ 16 ∧ bal > 800 then ⟨Mission.criticalRefuel, true⟩
  else if bal > 700 then ⟨Mission.fatBurn, false⟩
  else if bal < -300 then ⟨Mission.refuel, false⟩
  else if log.exerciseMinutes = 0 then ⟨Mission.recovery, false⟩
  else if log.exerciseMinutes ≥ 30 ∧ log.sleepHours ≥ 7 ∧
      log.waterMl ≥ waterTarget ∧ 0 ≤ bal ∧ bal ≤ 500 then
    ⟨Mission.complete, false⟩
  else ⟨Mission.optimal, false⟩

-- ─── ExecutiveDashboard.tsx: insight rule engine ───────────────────────────

inductive Level where
  | ok
  | warn
  | alert
  | info
deriving DecidableEq, Repr

/-- Message template keys of the rule engine, carrying the numeric parameters
that the code substitutes into the localized template at emission time
(string rendering itself is i18n and out of scope, per the spec). -/
inductive MsgKind where
  | msgAwaitingInput
  | msgDeficitHigh (bal : ℚ)
  | msgSurplusDetected (amt : ℚ)
  | msgCalorieOk (bal : ℚ)
  | msgCriticalRefuel (kcal : ℚ)
  | msgCrashImminent
  | msgLowFuel (depH depM : ℤ)
  | msgFuelPrediction (depH depM : ℤ)
  | msgNoFuel
  | msgFuelingClosed
  | msgExerciseDeficit
  | msgHighOutput (mins : ℚ)
  | msgExerciseGoalMet (mins : ℚ)
  | msgExerciseInProgress (mins rem : ℚ)
  | msgSleepMissing
  | msgSleepCritical (hrs : ℚ)
  | msgSleepSuboptimal (hrs : ℚ)
  | msgSleepOptimal (hrs : ℚ)
  | msgHighDehydration
  | msgHydrationOptimal (ml : ℚ)
  | msgHydration (ml total rem : ℚ)
  | msgMetabolicSluggishness
deriving DecidableEq, Repr

structure Insight where
  level : Level
  message : MsgKind
deriving DecidableEq, Repr

/-- JavaScript truncation toward zero (`Math.trunc`, also the rounding used
by the `%` operator). -/
def jsTrunc (q : ℚ) : ℤ := if 0 ≤ q then ⌊q⌋ else ⌈q⌉

/-- JavaScript remainder `a % b` (sign of the dividend). -/
def jsMod (a b : ℚ) : ℚ := a - b * jsTrunc (a / b)

/-- Rule group 1 — calorie balance. -/
def calorieInsights (caloriesIn bal : ℚ) : List Insight :=
  if caloriesIn = 0 then [⟨Level.info, MsgKind.msgAwaitingInput⟩]
  else if bal > 700 then [⟨Level.warn, MsgKind.msgDeficitHigh bal⟩]
  else if bal < -300 then [⟨Level.alert, MsgKind.msgSurplusDetected |bal|⟩]
  else [⟨Level.ok, MsgKind.msgCalorieOk bal⟩]

/-- Rule group 2 — critical refuel guard. -/
def refuelInsights (hour : ℤ) (bal caloriesIn : ℚ) : List Insight :=
  if hour ≥ 16 ∧ bal > 800 ∧ caloriesIn > 0 then
    [⟨Level.alert, MsgKind.msgCriticalRefuel bal⟩]
  else []

/-- Rule group 3 — burn-out predictor.
`fuelLeft = net / (bmr / 24)`; depletion time
`Math.floor((hour + fuelLeft) % 24)` : `Math.round(((hour + fuelLeft) % 1) * 60)`. -/
def fuelInsights (caloriesIn net bmr : ℚ) (hour : ℤ) : List Insight :=
  if caloriesIn > 0 ∧ net > 0 then
    let fuelLeft := net / (bmr / 24)
    let depH := ⌊jsMod ((hour : ℚ) + fuelLeft) 24⌋
    let depM := jsRound (jsMod ((hour : ℚ) + fuelLeft) 1 * 60)
    if fuelLeft < 3/2 then [⟨Level.alert, MsgKind.msgCrashImminent⟩]
    else if fuelLeft < 3 then [⟨Level.warn, MsgKind.msgLowFuel depH depM⟩]
    else [⟨Level.info, MsgKind.msgFuelPrediction depH depM⟩]
  else if caloriesIn = 0 then [⟨Level.alert, MsgKind.msgNoFuel⟩]
  else []

/-- Rule group 4 — late-night guard. -/
def lateNightInsights (hour : ℤ) (net targetCalories : ℚ) : List Insight :=
  if hour ≥ 21 ∧ net > targetCalories * (9/10) then
    [⟨Level.alert, MsgKind.msgFuelingClosed⟩]
  else []

/-- Rule group 5 — exercise. -/
def exerciseInsights (exerciseMinutes : ℚ) : List Insight :=
  if exerciseMinutes = 0 then [⟨Level.warn, MsgKind.msgExerciseDeficit⟩]
  else if exerciseMinutes ≥ 60 then [⟨Level.ok, MsgKind.msgHighOutput exerciseMinutes⟩]
  else if exerciseMinutes ≥ 30 then [⟨Level.ok, MsgKind.msgExerciseGoalMet exerciseMinutes⟩]
  else [⟨Level.info, MsgKind.msgExerciseInProgress exerciseMinutes (30 - exerciseMinutes)⟩]

/-- Rule group 6 — sleep. -/
def sleepInsights (sleepHours : ℚ) : List Insight :=
  if sleepHours = 0 then [⟨Level.info, MsgKind.msgSleepMissing⟩]
  else if sleepHours < 6 then [⟨Level.alert, MsgKind.msgSleepCritical sleepHours⟩]
  else if sleepHours < 7 then [⟨Level.warn, MsgKind.msgSleepSuboptimal sleepHours⟩]
  else [⟨Level.ok, MsgKind.msgSleepOptimal sleepHours⟩]

/-- Rule group 7 — hydration (an `if / else if / else` chain in the code). -/
def hydrationInsights (hour : ℤ) (waterMl waterTarget : ℚ) : List Insight :=
  if hour ≥ 14 ∧ waterMl < 1000 then [⟨Level.alert, MsgKind.msgHighDehydration⟩]
  else if waterMl ≥ waterTarget then [⟨Level.ok, MsgKind.msgHydrationOptimal waterMl⟩]
  else [⟨Level.info, MsgKind.msgHydration waterMl waterTarget (waterTarget - waterMl)⟩]

/-- Rule group 8 — metabolic / flush. -/
def flushInsights (hour : ℤ) (flushDone : Bool) : List Insight :=
  if hour ≥ 18 ∧ flushDone = false then [⟨Level.warn, MsgKind.msgMetabolicSluggishness⟩]
  else []

/-- Function `runEngine(log, targetCalories, bmr, t, waterTarget)`: the eight rule
groups evaluated in order, pushes into `out` modelled as list concatenation.
The ambient hour is the explicit parameter `hour`. -/
def runEngine (log : DailyLog) (targetCalories bmr : ℚ) (hour : ℤ)
    (waterTarget : ℚ := WATER_TARGET_ML) : List Insight :=
  let net := log.caloriesIn - log.caloriesOut
  let bal := targetCalories - net
  calorieInsights log.caloriesIn bal
    ++ refuelInsights hour bal log.caloriesIn
    ++ fuelInsights log.caloriesIn net bmr hour
    ++ lateNightInsights hour net targetCalories
    ++ exerciseInsights log.exerciseMinutes
    ++ sleepInsights log.sleepHours
    ++ hydrationInsights hour log.waterMl waterTarget
    ++ flushInsights hour log.flushDone

/-- Is this insight one of the two generic hydration messages from rule
group 7 (the `ok` "optimal" message or the `info` remaining-ml message)? -/
def isGenericHydration (i : Insight) : Bool :=
  match i.message with
  | MsgKind.msgHydrationOptimal _ => true
  | MsgKind.msgHydration _ _ _ => true
  | _ => false

-- ─── data-sync.ts: leaderboard ranker (pure core) ──────────────────────────

/-- One row of the `daily_logs` query feeding the leaderboard. -/
structure LogRow where
  userId : String
  snap : DaySnapshot
deriving DecidableEq, Repr

/-- One row of the `profiles` query feeding the leaderboard. -/
structure ProfileRow where
  userId : String
  targetCalories : ℚ
  goal : String
deriving DecidableEq, Repr

structure LeaderboardEntry where
  userId : String
  score : ℤ
  goal : String
deriving DecidableEq, Repr

/-- The all-zero `DaySnapshot` used to pad missing days. -/
def zeroSnap : DaySnapshot := ⟨0, 0, 0, 0, 0⟩

/-- One step of building the `userLogs` map: append the row's snapshot to the
user's list, creating the (insertion-ordered) entry on first sight, as a JS
`Map` does. -/
def insertLogRow (acc : List (String × List DaySnapshot)) (row : LogRow) :
    List (String × List DaySnapshot) :=
  if acc.any (fun p => p.1 = row.userId) then
    acc.map (fun p => if p.1 = row.userId then (p.1, p.2 ++ [row.snap]) else p)
  else acc ++ [(row.userId, [row.snap])]

/-- Map `userLogs`: group the log rows by user, preserving first-insertion order. -/
def groupLogs (logs : List LogRow) : List (String × List DaySnapshot) :=
  logs.foldl insertLogRow []

/-- Lookup `profileMap.get(userId)`: a JS `Map` built from a list keeps the last
entry for a duplicated key. -/
def findProfile (profiles : List ProfileRow) (uid : String) : Option ProfileRow :=
  profiles.reverse.find? (fun p => p.userId = uid)

/-- Padding loop `while (snaps.length < 3) snaps.push(zero)` — pad to the 3-day window. -/
def padTo3 (snaps : List DaySnapshot) : List DaySnapshot :=
  snaps ++ List.replicate (3 - snaps.length) zeroSnap

/-- Build one leaderboard entry; `none` when the user has no profile row
(the `if (!prof) continue` skip). -/
def mkEntry (profiles : List ProfileRow) (g : String × List DaySnapshot) :
    Option LeaderboardEntry :=
  match findProfile profiles g.1 with
  | none => none
  | some p => some ⟨g.1, calculateExecutionScore (padTo3 g.2) p.targetCalories, p.goal⟩

/-- Insert into a list already sorted by score descending, after every entry
with a score `≥` the new one (the stable behaviour of
`entries.sort((a, b) => b.score - a.score)`). -/
def insertByScore (e : LeaderboardEntry) : List LeaderboardEntry → List LeaderboardEntry
  | [] => [e]
  | f :: rest => if f.score > e.score then f :: insertByScore e rest else e :: f :: rest

/-- Stable sort by score descending. -/
def sortByScore : List LeaderboardEntry → List LeaderboardEntry
  | [] => []
  | e :: rest => insertByScore e (sortByScore rest)

/-- The pure core of `cloudLoadLeaderboard`, with the two query results as
explicit inputs: group the log rows by user, drop users without a profile,
pad each snapshot list to 3 days, score, sort by score descending and
`slice(0, 10)`. -/
def cloudLoadLeaderboard (logs : List LogRow) (profiles : List ProfileRow) :
    List LeaderboardEntry :=
  (sortByScore ((groupLogs logs).filterMap (mkEntry profiles))).take 10

example : calculateDayScore ⟨2000, 300, 30, 8, 2000⟩ 2149 2000 = 75 := by
  norm_num [calculateDayScore, dayScoreSum, caloriePoints, hydrationPoints,
    exercisePoints, sleepPoints, jsRound, Rat.floor_def]
example : calculateDayScore ⟨0, 0, 0, 0, 0⟩ 2149 2000 = 0 := by
  norm_num [calculateDayScore, dayScoreSum, caloriePoints, hydrationPoints,
    exercisePoints, sleepPoints, jsRound, Rat.floor_def]
example : calculateBMR 75 175 28 Gender.male = 1709 := by
  norm_num [calculateBMR, jsRound, Rat.floor_def]

-- ─── C1 ────────────────────────────────────────────────────────────────────

/-- C1: for every `DaySnapshot`, `targetCalories` and `waterTarget`,
`calculateDayScore` returns a value in `[0, 100]`; in particular, whenever
the four category points sum to a negative number, the result is clamped
to `0`. -/
theorem calculateDayScore_bounded (day : DaySnapshot) (targetCalories waterTarget : ℚ) :
    0 ≤ calculateDayScore day targetCalories waterTarget ∧
      calculateDayScore day targetCalories waterTarget ≤ 100 ∧
      (dayScoreSum day targetCalories waterTarget < 0 →
        calculateDayScore day targetCalories waterTarget = 0) := by
  unfold calculateDayScore
  refine ⟨?_, ?_, fun h => ?_⟩ <;> omega

/-- C1 witness: the all-zero day against target 2149 has category sum −5 and
day score 0. -/
theorem calculateDayScore_bounded_witness :
    dayScoreSum ⟨0, 0, 0, 0, 0⟩ 2149 2000 < 0 ∧
      calculateDayScore ⟨0, 0, 0, 0, 0⟩ 2149 2000 = 0 := by
  have hsum : dayScoreSum ⟨0, 0, 0, 0, 0⟩ 2149 2000 < 0 := by
    norm_num [dayScoreSum, caloriePoints, hydrationPoints, exercisePoints,
      sleepPoints, jsRound, Rat.floor_def]
  exact ⟨hsum, (calculateDayScore_bounded ⟨0, 0, 0, 0, 0⟩ 2149 2000).2.2 hsum⟩

-- ─── C2 ────────────────────────────────────────────────────────────────────

theorem foldl_add_score (f : DaySnapshot → ℤ) (l : List DaySnapshot) (init : ℤ) :
    l.foldl (fun sum d => sum + f d) init = init + (l.map f).sum := by
  induction l generalizing init with
  | nil => simp
  | cons d rest ih => simp [ih]; ring

/-- C2: `calculateExecutionScore` of an empty list is 0, and of a non-empty
list is the arithmetic mean of `calculateDayScore` over the days, rounded
with `Math.round`. -/
theorem calculateExecutionScore_spec (days : List DaySnapshot)
    (targetCalories waterTarget : ℚ) :
    calculateExecutionScore [] targetCalories waterTarget = 0 ∧
      (days ≠ [] →
        calculateExecutionScore days targetCalories waterTarget =
          jsRound ((((days.map
              (fun d => calculateDayScore d targetCalories waterTarget)).sum : ℤ) : ℚ)
            / (days.length : ℚ))) := by
  constructor
  · rfl
  · intro hne
    unfold calculateExecutionScore
    rw [if_neg (by simpa using hne), foldl_add_score]
    norm_num

/-- C2 witness: a concrete two-day window averages to the rounded mean. -/
theorem calculateExecutionScore_spec_witness :
    ([⟨2000, 300, 30, 8, 2000⟩, (⟨0, 0, 0, 0, 0⟩ : DaySnapshot)] ≠ []) ∧
      calculateExecutionScore [⟨2000, 300, 30, 8, 2000⟩, ⟨0, 0, 0, 0, 0⟩] 2149 2000 =
        jsRound (((([⟨2000, 300, 30, 8, 2000⟩, (⟨0, 0, 0, 0, 0⟩ : DaySnapshot)].map
            (fun d => calculateDayScore d 2149 2000)).sum : ℤ) : ℚ) / 2) :=
  ⟨by simp,
    (calculateExecutionScore_spec [⟨2000, 300, 30, 8, 2000⟩, ⟨0, 0, 0, 0, 0⟩] 2149 2000).2
      (by simp)⟩

-- ─── C8 ────────────────────────────────────────────────────────────────────

/-- C8: the delta patch yields `next.field = max(0, current.field +
delta.field)` for all five numeric fields and
`next.flushDone = delta.flushDone if provided else current.flushDone`;
hence every patched log again has non-negative numeric fields. -/
theorem patchDailyLog_spec (cur : DailyLog) (patch : DailyLogPatch)
    (hcur : LogNonneg cur) :
    (patchDailyLog cur patch).caloriesIn = max 0 (cur.caloriesIn + patch.caloriesIn.getD 0) ∧
      (patchDailyLog cur patch).caloriesOut = max 0 (cur.caloriesOut + patch.caloriesOut.getD 0) ∧
      (patchDailyLog cur patch).exerciseMinutes
        = max 0 (cur.exerciseMinutes + patch.exerciseMinutes.getD 0) ∧
      (patchDailyLog cur patch).sleepHours = max 0 (cur.sleepHours + patch.sleepHours.getD 0) ∧
      (patchDailyLog cur patch).waterMl = max 0 (cur.waterMl + patch.waterMl.getD 0) ∧
      (patchDailyLog cur patch).flushDone = patch.flushDone.getD cur.flushDone ∧
      LogNonneg (patchDailyLog cur patch) :=
  ⟨rfl, rfl, rfl, rfl, rfl, rfl,
    le_max_left 0 _, le_max_left 0 _, le_max_left 0 _, le_max_left 0 _, le_max_left 0 _⟩

/-- C8 witness: a concrete negative-delta patch clamps at zero and keeps the
invariant. -/
theorem patchDailyLog_spec_witness :
    LogNonneg ⟨100, 50, 10, 8, 500, false⟩ ∧
      (patchDailyLog ⟨100, 50, 10, 8, 500, false⟩
          ⟨some (-200), none, some 5, none, some 100, some true⟩).waterMl
        = max 0 ((500 : ℚ) + 100) ∧
      LogNonneg (patchDailyLog ⟨100, 50, 10, 8, 500, false⟩
        ⟨some (-200), none, some 5, none, some 100, some true⟩) := by
  have hcur : LogNonneg ⟨100, 50, 10, 8, 500, false⟩ := by
    unfold LogNonneg; norm_num
  have h := patchDailyLog_spec ⟨100, 50, 10, 8, 500, false⟩
    ⟨some (-200), none, some 5, none, some 100, some true⟩ hcur
  exact ⟨hcur, h.2.2.2.2.1, h.2.2.2.2.2.2⟩

-- ─── C9 ────────────────────────────────────────────────────────────────────

/-- C9: for every weight, height and age, the male BMR is exactly the female
BMR plus 166. -/
theorem calculateBMR_male_eq_female_add_166 (weightKg heightCm age : ℚ) :
    calculateBMR weightKg heightCm age Gender.male =
      calculateBMR weightKg heightCm age Gender.female + 166 := by
  unfold calculateBMR
  simp only [reduceCtorEq, if_pos rfl, if_neg]
  rw [show 10 * weightKg + 625/100 * heightCm - 5 * age + 5
        = (10 * weightKg + 625/100 * heightCm - 5 * age - 161) + ((166 : ℤ) : ℚ) by
      push_cast; ring]
  exact jsRound_add_int _ 166

-- ─── C10 ───────────────────────────────────────────────────────────────────

/-- C10: the legacy two-argument `calculateDayScore` (hydration thresholds
2000 / 1500 / 1000) agrees with the three-argument variant at its default
`waterTarget = 2000`, for every day and target. -/
theorem calculateDayScoreLegacy_eq_default (day : DaySnapshot) (targetCalories : ℚ) :
    calculateDayScoreLegacy day targetCalories =
      calculateDayScore day targetCalories WATER_TARGET_ML := by
  unfold calculateDayScoreLegacy calculateDayScore dayScoreSum hydrationPoints
  have h75 : ((jsRound (WATER_TARGET_ML * (75/100)) : ℤ) : ℚ) = 1500 := by
    norm_num [WATER_TARGET_ML, jsRound, Rat.floor_def]
  have h50 : ((jsRound (WATER_TARGET_ML * (5/10)) : ℤ) : ℚ) = 1000 := by
    norm_num [WATER_TARGET_ML, jsRound, Rat.floor_def]
  rw [h75, h50]

-- ─── C4 ────────────────────────────────────────────────────────────────────

/-- C4 counterexample: at hour 22 a log with `caloriesIn = 0` yields the
"standby" mission, not "sleep" — the `caloriesIn == 0` branch precedes the
`hour ≥ 21` branch. -/
theorem getMission_hour22_cex :
    (getMission DEFAULT_LOG 2000 22 2000).text ≠ Mission.sleep ∧
      (getMission DEFAULT_LOG 2000 22 2000).text = Mission.standby := by
  have h : getMission DEFAULT_LOG 2000 22 2000 = ⟨Mission.standby, false⟩ := by
    unfold getMission DEFAULT_LOG
    norm_num
  rw [h]
  exact ⟨by simp, rfl⟩

/-- C4 amended: for every log with `caloriesIn ≠ 0` and every target (and
water target), mission evaluation at hour 22 returns "sleep" (not critical),
regardless of calorie balance. -/
theorem getMission_hour22_sleep (log : DailyLog) (targetCalories waterTarget : ℚ)
    (h : log.caloriesIn ≠ 0) :
    getMission log targetCalories 22 waterTarget = ⟨Mission.sleep, false⟩ := by
  unfold getMission
  rw [if_neg h, if_pos (by norm_num)]

/-- C4 witness: a log with 500 kcal in, at hour 22. -/
theorem getMission_hour22_sleep_witness :
    (DailyLog.caloriesIn ⟨500, 0, 0, 0, 0, false⟩ ≠ 0) ∧
      getMission ⟨500, 0, 0, 0, 0, false⟩ 2000 22 2000 = ⟨Mission.sleep, false⟩ :=
  ⟨by norm_num, getMission_hour22_sleep ⟨500, 0, 0, 0, 0, false⟩ 2000 2000 (by norm_num)⟩

-- ─── C6 ────────────────────────────────────────────────────────────────────

/-- C6: whenever `caloriesIn = 0`, the engine emits both the rule-group-1
info "awaiting input" and the rule-group-3 alert "no fuel detected". -/
theorem runEngine_zero_calories_both (log : DailyLog) (targetCalories bmr : ℚ)
    (hour : ℤ) (waterTarget : ℚ) (h : log.caloriesIn = 0) :
    ⟨Level.info, MsgKind.msgAwaitingInput⟩
        ∈ runEngine log targetCalories bmr hour waterTarget ∧
      ⟨Level.alert, MsgKind.msgNoFuel⟩
        ∈ runEngine log targetCalories bmr hour waterTarget := by
  unfold runEngine
  constructor
  · have h1 : calorieInsights log.caloriesIn (targetCalories - (log.caloriesIn - log.caloriesOut))
        = [⟨Level.info, MsgKind.msgAwaitingInput⟩] := by
      unfold calorieInsights
      rw [if_pos h]
    simp [h1]
  · have h3 : fuelInsights log.caloriesIn (log.caloriesIn - log.caloriesOut) bmr hour
        = [⟨Level.alert, MsgKind.msgNoFuel⟩] := by
      unfold fuelInsights
      rw [if_neg (by simp [h]), if_pos h]
    simp [h3]

/-- C6 witness: the fresh all-zero log at hour 10 emits both messages. -/
theorem runEngine_zero_calories_both_witness :
    DEFAULT_LOG.caloriesIn = 0 ∧
      ⟨Level.info, MsgKind.msgAwaitingInput⟩ ∈ runEngine DEFAULT_LOG 2000 1700 10 2000 ∧
      ⟨Level.alert, MsgKind.msgNoFuel⟩ ∈ runEngine DEFAULT_LOG 2000 1700 10 2000 :=
  ⟨rfl, runEngine_zero_calories_both DEFAULT_LOG 2000 1700 10 2000 rfl⟩

-- ─── C5 ────────────────────────────────────────────────────────────────────

theorem calorieInsights_not_hydration (caloriesIn bal : ℚ) :
    ∀ i ∈ calorieInsights caloriesIn bal, isGenericHydration i = false := by
  intro i hi
  unfold calorieInsights at hi
  split at hi <;> try split at hi
  all_goals try split at hi
  all_goals simp_all [isGenericHydration]

theorem refuelInsights_not_hydration (hour : ℤ) (bal caloriesIn : ℚ) :
    ∀ i ∈ refuelInsights hour bal caloriesIn, isGenericHydration i = false := by
  intro i hi
  unfold refuelInsights at hi
  split at hi <;> simp_all [isGenericHydration]

theorem fuelInsights_not_hydration (caloriesIn net bmr : ℚ) (hour : ℤ) :
    ∀ i ∈ fuelInsights caloriesIn net bmr hour, isGenericHydration i = false := by
  intro i hi
  unfold fuelInsights at hi
  simp only [] at hi
  split_ifs at hi <;> simp_all [isGenericHydration]

theorem lateNightInsights_not_hydration (hour : ℤ) (net targetCalories : ℚ) :
    ∀ i ∈ lateNightInsights hour net targetCalories, isGenericHydration i = false := by
  intro i hi
  unfold lateNightInsights at hi
  split at hi <;> simp_all [isGenericHydration]

theorem exerciseInsights_not_hydration (exerciseMinutes : ℚ) :
    ∀ i ∈ exerciseInsights exerciseMinutes, isGenericHydration i = false := by
  intro i hi
  unfold exerciseInsights at hi
  split at hi <;> try split at hi
  all_goals try split at hi
  all_goals simp_all [isGenericHydration]

theorem sleepInsights_not_hydration (sleepHours : ℚ) :
    ∀ i ∈ sleepInsights sleepHours, isGenericHydration i = false := by
  intro i hi
  unfold sleepInsights at hi
  split at hi <;> try split at hi
  all_goals try split at hi
  all_goals simp_all [isGenericHydration]

theorem flushInsights_not_hydration (hour : ℤ) (flushDone : Bool) :
    ∀ i ∈ flushInsights hour flushDone, isGenericHydration i = false := by
  intro i hi
  unfold flushInsights at hi
  split at hi <;> simp_all [isGenericHydration]

/-- A concrete mid-afternoon log with low water: 1800 kcal in, 200 out,
30 min exercise, 7 h sleep, 500 ml water, flush done. -/
def dehydratedLog : DailyLog := ⟨1800, 200, 30, 7, 500, true⟩

/-- Evaluation of the full engine on `dehydratedLog` at hour 14 with
`bmr = 1700`, `targetCalories = 2000`, `waterTarget = 2000`. -/
theorem runEngine_dehydratedLog_eval :
    runEngine dehydratedLog 2000 1700 14 2000 =
      [⟨Level.ok, MsgKind.msgCalorieOk 400⟩,
       ⟨Level.info, MsgKind.msgFuelPrediction 12 35⟩,
       ⟨Level.ok, MsgKind.msgExerciseGoalMet 30⟩,
       ⟨Level.ok, MsgKind.msgSleepOptimal 7⟩,
       ⟨Level.alert, MsgKind.msgHighDehydration⟩] := by
  norm_num [runEngine, dehydratedLog, calorieInsights, refuelInsights, fuelInsights,
    lateNightInsights, exerciseInsights, sleepInsights, hydrationInsights,
    flushInsights, jsMod, jsTrunc, jsRound, Rat.floor_def]

/-- C5 counterexample: `dehydratedLog` at hour 14 (waterMl = 500 < 1000)
produces the dehydration alert but **no** generic hydration insight — the
`else if` chain suppresses rule group 7's ok/info message. -/
theorem runEngine_dehydration_cex :
    dehydratedLog.waterMl < 1000 ∧
      ⟨Level.alert, MsgKind.msgHighDehydration⟩ ∈ runEngine dehydratedLog 2000 1700 14 2000 ∧
      ∀ i ∈ runEngine dehydratedLog 2000 1700 14 2000, isGenericHydration i = false := by
  refine ⟨by norm_num [dehydratedLog], ?_, ?_⟩ <;> rw [runEngine_dehydratedLog_eval]
  · simp
  · intro i hi
    fin_cases hi <;> rfl

/-- C5 amended: when `hour ≥ 14` and `waterMl < 1000`, the engine emits the
"high dehydration risk" alert and emits **no** generic hydration insight
(the alert supersedes and suppresses rule group 7's ok/info message). -/
theorem runEngine_dehydration_suppresses (log : DailyLog) (targetCalories bmr : ℚ)
    (hour : ℤ) (waterTarget : ℚ) (h14 : hour ≥ 14) (hw : log.waterMl < 1000) :
    ⟨Level.alert, MsgKind.msgHighDehydration⟩
        ∈ runEngine log targetCalories bmr hour waterTarget ∧
      ∀ i ∈ runEngine log targetCalories bmr hour waterTarget,
        isGenericHydration i = false := by
  have h7 : hydrationInsights hour log.waterMl waterTarget
      = [⟨Level.alert, MsgKind.msgHighDehydration⟩] := by
    unfold hydrationInsights
    rw [if_pos ⟨h14, hw⟩]
  unfold runEngine
  constructor
  · simp [h7]
  · intro i hi
    simp only [List.mem_append] at hi
    rcases hi with ((((((h1 | h2) | h3) | h4) | h5) | h6) | h7m) | h8
    · exact calorieInsights_not_hydration _ _ i h1
    · exact refuelInsights_not_hydration _ _ _ i h2
    · exact fuelInsights_not_hydration _ _ _ _ i h3
    · exact lateNightInsights_not_hydration _ _ _ i h4
    · exact exerciseInsights_not_hydration _ i h5
    · exact sleepInsights_not_hydration _ i h6
    · rw [h7] at h7m
      simp only [List.mem_singleton] at h7m
      subst h7m
      rfl
    · exact flushInsights_not_hydration _ _ i h8

/-- C5 witness: the amended statement applied to `dehydratedLog` at hour 14. -/
theorem runEngine_dehydration_suppresses_witness :
    (14 : ℤ) ≥ 14 ∧ dehydratedLog.waterMl < 1000 ∧
      ⟨Level.alert, MsgKind.msgHighDehydration⟩ ∈ runEngine dehydratedLog 2500 1600 14 2000 ∧
      ∀ i ∈ runEngine dehydratedLog 2500 1600 14 2000, isGenericHydration i = false := by
  have h := runEngine_dehydration_suppresses dehydratedLog 2500 1600 14 2000
    (by norm_num) (by norm_num [dehydratedLog])
  exact ⟨by norm_num, by norm_num [dehydratedLog], h.1, h.2⟩

-- ─── C3 ────────────────────────────────────────────────────────────────────

/-- The hydration tiers as claim C3 words them, with the *exact* real-number
thresholds `0.75 * waterTarget` and `0.5 * waterTarget` (for comparison with
the code's rounded thresholds). -/
def hydrationPointsExact (waterMl waterTarget : ℚ) : ℤ :=
  if waterMl ≥ waterTarget then 20
  else if waterMl ≥ waterTarget * (3/4) then 12
  else if waterMl ≥ waterTarget * (1/2) then 5
  else -5

/-- C3 counterexample: at `waterTarget = 2003`, `waterMl = 1502` the code
awards 12 points although `1502 < 0.75 * 2003 = 1502.25` (the exact-threshold
reading awards only 5): the code's threshold is `Math.round(0.75 *
waterTarget)`, not the exact product. -/
theorem hydrationPoints_exact_cex :
    (1502 : ℚ) < 2003 * (3/4) ∧
      hydrationPoints 1502 2003 = 12 ∧ hydrationPointsExact 1502 2003 = 5 := by
  norm_num [hydrationPoints, hydrationPointsExact, jsRound, Rat.floor_def]

/-- C3 amended, spec-worded tier table: 20 when `waterMl ≥ waterTarget`,
12 when `waterMl ≥ round(0.75 * waterTarget)`, 5 when
`waterMl ≥ round(0.5 * waterTarget)`, −5 otherwise, with round-half-up
(JavaScript `Math.round`) thresholds. -/
def hydrationTierAmended (waterMl waterTarget : ℚ) : ℤ :=
  if waterTarget ≤ waterMl then 20
  else if ((⌊waterTarget * (3/4) + 1/2⌋ : ℤ) : ℚ) ≤ waterMl then 12
  else if ((⌊waterTarget * (1/2) + 1/2⌋ : ℤ) : ℚ) ≤ waterMl then 5
  else -5

/-- C3 amended: for every day, target and water target, the hydration
category of `calculateDayScore` awards points per the rounded-threshold tier
table, and the day score is the clamped sum of the four categories with that
tier table in the hydration slot. -/
theorem hydrationPoints_amended (day : DaySnapshot) (targetCalories waterTarget : ℚ) :
    hydrationPoints day.waterMl waterTarget = hydrationTierAmended day.waterMl waterTarget ∧
      calculateDayScore day targetCalories waterTarget =
        max 0 (min 100 (caloriePoints day.caloriesIn day.caloriesOut targetCalories
          + hydrationTierAmended day.waterMl waterTarget
          + exercisePoints day.exerciseMinutes + sleepPoints day.sleepHours)) := by
  have e1 : (75 : ℚ)/100 = 3/4 := by norm_num
  have e2 : (5 : ℚ)/10 = 1/2 := by norm_num
  have h : hydrationPoints day.waterMl waterTarget
      = hydrationTierAmended day.waterMl waterTarget := by
    unfold hydrationPoints hydrationTierAmended jsRound
    rw [e1, e2]
  refine ⟨h, ?_⟩
  unfold calculateDayScore dayScoreSum
  rw [h]

-- ─── C7 ────────────────────────────────────────────────────────────────────

theorem mem_insertByScore (e a : LeaderboardEntry) (l : List LeaderboardEntry) :
    a ∈ insertByScore e l ↔ a = e ∨ a ∈ l := by
  induction l with
  | nil => simp [insertByScore]
  | cons f rest ih =>
    unfold insertByScore
    split
    · simp only [List.mem_cons, ih]
      tauto
    · simp only [List.mem_cons]

theorem mem_sortByScore (a : LeaderboardEntry) (l : List LeaderboardEntry) :
    a ∈ sortByScore l ↔ a ∈ l := by
  induction l with
  | nil => simp [sortByScore]
  | cons f rest ih => simp [sortByScore, mem_insertByScore, ih]

theorem pairwise_insertByScore (e : LeaderboardEntry) (l : List LeaderboardEntry)
    (h : l.Pairwise (fun a b => b.score ≤ a.score)) :
    (insertByScore e l).Pairwise (fun a b => b.score ≤ a.score) := by
  induction l with
  | nil => simp [insertByScore]
  | cons f rest ih =>
    rcases List.pairwise_cons.1 h with ⟨hf, hrest⟩
    unfold insertByScore
    split
    case isTrue hgt =>
      refine List.pairwise_cons.2 ⟨?_, ih hrest⟩
      intro x hx
      rcases (mem_insertByScore e x rest).1 hx with rfl | hxr
      · exact le_of_lt hgt
      · exact hf x hxr
    case isFalse hle =>
      refine List.pairwise_cons.2 ⟨?_, h⟩
      intro x hx
      rcases List.mem_cons.1 hx with rfl | hxr
      · exact le_of_not_lt hle
      · exact le_trans (hf x hxr) (le_of_not_lt hle)

theorem pairwise_sortByScore (l : List LeaderboardEntry) :
    (sortByScore l).Pairwise (fun a b => b.score ≤ a.score) := by
  induction l with
  | nil => simp [sortByScore]
  | cons f rest ih => exact pairwise_insertByScore f (sortByScore rest) ih

/-- Scenario D input: two users with one zero log row each. -/
def twoUserLogs : List LogRow := [⟨"u1", zeroSnap⟩, ⟨"u2", zeroSnap⟩]

/-- Scenario D input: only user "u1" has a profile row. -/
def oneProfile : List ProfileRow := [⟨"u1", 2000, "loss"⟩]

theorem leaderboard_scenario_eval :
    cloudLoadLeaderboard twoUserLogs oneProfile = [⟨"u1", 0, "loss"⟩] := by
  have hscore : calculateDayScore zeroSnap 2000 WATER_TARGET_ML = 0 := by
    norm_num [calculateDayScore, dayScoreSum, caloriePoints, hydrationPoints,
      exercisePoints, sleepPoints, zeroSnap, WATER_TARGET_ML, jsRound, Rat.floor_def]
  have hexec : calculateExecutionScore (padTo3 [zeroSnap]) 2000 WATER_TARGET_ML = 0 := by
    rw [show padTo3 [zeroSnap] = [zeroSnap, zeroSnap, zeroSnap] from rfl]
    unfold calculateExecutionScore
    rw [if_neg (by simp)]
    simp only [List.foldl_cons, List.foldl_nil, hscore]
    norm_num [jsRound, Rat.floor_def]
  have hgroup : groupLogs twoUserLogs = [("u1", [zeroSnap]), ("u2", [zeroSnap])] := rfl
  have h5 : mkEntry oneProfile ("u1", [zeroSnap]) = some ⟨"u1", 0, "loss"⟩ := by
    rw [show mkEntry oneProfile ("u1", [zeroSnap])
        = some (⟨"u1", calculateExecutionScore (padTo3 [zeroSnap]) 2000 WATER_TARGET_ML,
            "loss"⟩ : LeaderboardEntry) from rfl, hexec]
  have h6 : mkEntry oneProfile ("u2", [zeroSnap]) = none := rfl
  unfold cloudLoadLeaderboard
  rw [hgroup,
    show ([("u1", [zeroSnap]), ("u2", [zeroSnap])] :
        List (String × List DaySnapshot)).filterMap (mkEntry oneProfile)
      = [(⟨"u1", 0, "loss"⟩ : LeaderboardEntry)] by
      simp [List.filterMap_cons, h5, h6]]
  rfl

/-- C7: the leaderboard is sorted by score descending, has at most 10
entries, every emitted entry belongs to a grouped user whose profile exists
(users without a profile are skipped) and carries the execution score of the
user's snapshot list padded to 3 days with all-zero snapshots; and on
Scenario D (two users, one without a profile) it has exactly 1 entry. -/
theorem cloudLoadLeaderboard_spec (logs : List LogRow) (profiles : List ProfileRow) :
    (cloudLoadLeaderboard logs profiles).Pairwise (fun a b => b.score ≤ a.score) ∧
      (cloudLoadLeaderboard logs profiles).length ≤ 10 ∧
      (∀ e ∈ cloudLoadLeaderboard logs profiles,
        ∃ uid snaps p, (uid, snaps) ∈ groupLogs logs ∧ p ∈ profiles ∧
          findProfile profiles uid = some p ∧
          e = ⟨uid, calculateExecutionScore
              (snaps ++ List.replicate (3 - snaps.length) zeroSnap)
              p.targetCalories, p.goal⟩) ∧
      (cloudLoadLeaderboard twoUserLogs oneProfile).length = 1 := by
  refine ⟨?_, ?_, ?_, by rw [leaderboard_scenario_eval]; rfl⟩
  · exact (pairwise_sortByScore _).sublist (List.take_sublist _ _)
  · rw [cloudLoadLeaderboard, List.length_take]
    exact min_le_left _ _
  · intro e he
    have h2 : e ∈ (groupLogs logs).filterMap (mkEntry profiles) :=
      (mem_sortByScore _ _).1 (List.mem_of_mem_take he)
    rcases List.mem_filterMap.1 h2 with ⟨g, hg, hmk⟩
    unfold mkEntry at hmk
    rcases hfind : findProfile profiles g.1 with _ | p
    · rw [hfind] at hmk
      simp at hmk
    · rw [hfind] at hmk
      simp only [Option.some.injEq] at hmk
      refine ⟨g.1, g.2, p, by simpa using hg, ?_, hfind, ?_⟩
      · exact List.mem_reverse.1 (List.mem_of_find?_eq_some hfind)
      · rw [← hmk]
        rfl

/-- C7 witness: the general statement applied to Scenario D and to its
single emitted entry. -/
theorem cloudLoadLeaderboard_spec_witness :
    (cloudLoadLeaderboard twoUserLogs oneProfile).length = 1 ∧
      ∃ uid snaps p, (uid, snaps) ∈ groupLogs twoUserLogs ∧ p ∈ oneProfile ∧
        findProfile oneProfile uid = some p ∧
        (⟨"u1", 0, "loss"⟩ : LeaderboardEntry)
          = ⟨uid, calculateExecutionScore
              (snaps ++ List.replicate (3 - snaps.length) zeroSnap)
              p.targetCalories, p.goal⟩ := by
  have h := cloudLoadLeaderboard_spec twoUserLogs oneProfile
  refine ⟨h.2.2.2, h.2.2.1 ⟨"u1", 0, "loss"⟩ ?_⟩
  rw [leaderboard_scenario_eval]
  simp
